import Mathlib

/-!
Shallow embedding of the Project Health Scoring & Reporting Engine
(backend/app/services: ai_service.py, report_service.py, task_service.py),
together with proofs about its scoring, classification, ranking, timeline
and report-upsert behaviour.

Modelling conventions:
* `datetime` instants are integers counting minutes, so `timedelta.days` is
  floor division by 1440; calendar dates (`date.today()`) are integers
  counting days.
* The Python dicts built by `_task_to_dict` and by the report loop are the
  `TaskDict` structure; a key that is absent or holds `None` is an `Option`
  field set to `none`.
* Code that can raise a Python exception returns `Except PyErr _`;
  code that cannot is a total function.
* The float literals `0.3`, `0.2`, `0.7` of `get_timeline_status` are
  modelled as exact rationals.  For every count/total in reachable range the
  rational comparisons agree with IEEE-double evaluation: the double of
  `0.3` is `5404319552844595/2^54 = 0.3·(1 - 3.7e-17)`, and multiplying it
  by a float `n` rounds back to exactly `3n/10` whenever that value is an
  integer, because the relative deficit `3.7e-17` is below the minimal
  relative half-ulp `2^-54`; similarly for `0.2` and `0.7`.
-/

namespace PMA

/-- Python exceptions raised by the embedded code. -/
inductive PyErr
  | valueError
  | typeError
deriving DecidableEq, Repr

/-- TaskStatus enum from models/task.py. -/
inductive TaskStatus
  | todo
  | in_progress
  | done
  | blocked
  | unclear
deriving DecidableEq, Repr

/-- String value of a TaskStatus, as in the Python `status.value`. -/
def TaskStatus.value : TaskStatus → String
  | .todo => "todo"
  | .in_progress => "in_progress"
  | .done => "done"
  | .blocked => "blocked"
  | .unclear => "unclear"

/-- TaskType enum from models/task.py. -/
inductive TaskType
  | feature
  | bug
  | research
  | blocked
  | unclear
deriving DecidableEq, Repr

/-- String value of a TaskType. -/
def TaskType.value : TaskType → String
  | .feature => "feature"
  | .bug => "bug"
  | .research => "research"
  | .blocked => "blocked"
  | .unclear => "unclear"

/-- RiskLevel enum from models/task.py. -/
inductive RiskLevel
  | low
  | medium
  | high
deriving DecidableEq, Repr

/-- String value of a RiskLevel. -/
def RiskLevel.value : RiskLevel → String
  | .low => "low"
  | .medium => "medium"
  | .high => "high"

/-- Python dict view of a task as handed to AIService (`_task_to_dict` in
task_service.py; the dict built in report_service.py lines 31-42).  `none`
models an absent key or a `None` value; instants are minutes. -/
structure TaskDict where
  id : Option Nat := none
  title : String := ""
  description : Option String := none
  status : String := "todo"
  deadline : Option Int := none
  assignee : Option String := none
  story_points : Option Int := none
  current_date : Option Int := none
  ai_risk_level : Option String := none
  task_type : Option String := none
  priority_score : Option Int := none
deriving DecidableEq, Repr

/-- Overdue check of detect_risk_level:
`task.get('deadline') and task.get('deadline') < task.get('current_date')`.
It raises TypeError when a deadline is present but the dict has no
reference date (`datetime < None`); every caller in the repository
supplies one. -/
def overdue_check (deadline cur : Option Int) : Except PyErr Bool :=
  match deadline, cur with
  | none, _ => Except.ok false
  | some dl, some c => Except.ok (decide (dl < c))
  | some _, none => Except.error PyErr.typeError

/-- Additive risk score of detect_risk_level: +3 overdue, +1 unassigned
(absent or empty), +3 blocked, +2 unclear-or-undescribed, +1 for
`story_points >= 8` (absent key defaults to 0). -/
def risk_score_of (t : TaskDict) (overdue : Bool) : Int :=
  (if overdue then 3 else 0) +
  (if t.assignee = none ∨ t.assignee = some "" then 1 else 0) +
  (if t.status = "blocked" then 3 else 0) +
  (if t.status = "unclear" ∨ t.description = none ∨ t.description = some "" then 2 else 0) +
  (if t.story_points.getD 0 ≥ 8 then 1 else 0)

/-- AIService.detect_risk_level (ai_service.py lines 69-98): additive risk
score, then thresholds: at least 4 gives high, at least 2 gives medium,
else low. -/
def detect_risk_level (t : TaskDict) : Except PyErr String :=
  match overdue_check t.deadline t.current_date with
  | Except.error e => Except.error e
  | Except.ok overdue =>
    let risk_score := risk_score_of t overdue
    if risk_score ≥ 4 then Except.ok RiskLevel.high.value
    else if risk_score ≥ 2 then Except.ok RiskLevel.medium.value
    else Except.ok RiskLevel.low.value

/-- Minutes per day, the divisor realising `timedelta.days`. -/
def minutesPerDay : Int := 1440

/-- Deadline urgency tiers of calculate_priority_score. -/
def urgency_points (days : Int) : Int :=
  if days < 0 then 100
  else if days ≤ 1 then 50
  else if days ≤ 3 then 30
  else if days ≤ 7 then 20
  else 0

/-- Days-until value
`(task['deadline'] - task.get('current_date', task['deadline'])).days`
(`timedelta.days` floors); `none` when no deadline is set. -/
def days_until_deadline (t : TaskDict) : Option Int :=
  t.deadline.map (fun dl => (dl - t.current_date.getD dl).fdiv minutesPerDay)

/-- The lookup `risk_weights.get(task.get('ai_risk_level', 'low'), 5)`:
an absent key defaults to 'low', an unrecognized value to weight 5. -/
def risk_weights_get (r : Option String) : Int :=
  match r with
  | some "high" => 30
  | some "medium" => 15
  | some "low" => 5
  | some _ => 5
  | none => 5

/-- Status contribution of calculate_priority_score. -/
def status_points (status : String) : Int :=
  if status = "blocked" then 40 else if status = "in_progress" then 25 else 0

/-- Task-type contribution of calculate_priority_score. -/
def type_points (tt : Option String) : Int :=
  if tt = some "bug" then 20 else 0

/-- Urgency contribution of calculate_priority_score: the tier of the
days-until value, or 0 when no deadline is set. -/
def urgency_term (t : TaskDict) : Int :=
  match days_until_deadline t with
  | none => 0
  | some days => urgency_points days

/-- AIService.calculate_priority_score (ai_service.py lines 100-130).  All
summands are integers, so evaluating them in Python float arithmetic is
exact; the result is modelled as an Int. -/
def calculate_priority_score (t : TaskDict) : Int :=
  urgency_term t + status_points t.status + risk_weights_get t.ai_risk_level + type_points t.task_type

/-- Loop body of rank_tasks_by_priority: write the computed score back into
the dict (`task['priority_score'] = self.calculate_priority_score(task)`). -/
def set_priority (t : TaskDict) : TaskDict :=
  { t with priority_score := some (calculate_priority_score t) }

/-- Sort key `lambda x: x.get('priority_score', 0)`. -/
def sort_key (t : TaskDict) : Int :=
  t.priority_score.getD 0

/-- Comparison realising `sorted(..., key=sort_key, reverse=True)`: `a`
may precede `b` iff `a`'s score is at least `b`'s. -/
def rank_le (a b : TaskDict) : Prop :=
  sort_key b ≤ sort_key a

instance : DecidableRel rank_le := fun a b => inferInstanceAs (Decidable (sort_key b ≤ sort_key a))

instance : IsTotal TaskDict rank_le := ⟨fun a b => le_total (sort_key b) (sort_key a)⟩

instance : IsTrans TaskDict rank_le := ⟨fun _ _ _ hab hbc => le_trans hbc hab⟩

/-- AIService.rank_tasks_by_priority (ai_service.py lines 242-249): score
every task, then sort descending by score.  Python's `sorted` with
`reverse=True` is a stable sort that never reverses equal-key elements, and
every stable sort for this comparison produces the same list as insertion
sort with `rank_le`. -/
def rank_tasks_by_priority (tasks : List TaskDict) : List TaskDict :=
  (tasks.map set_priority).insertionSort rank_le

/-- DB Task row, with the columns the services consume (models/task.py). -/
structure Task where
  id : Nat := 0
  project_id : Nat := 0
  title : String := ""
  description : Option String := none
  status : TaskStatus := .todo
  task_type : TaskType := .feature
  deadline : Option Int := none
  assignee : Option String := none
  priority_score : Int := 0
  ai_risk_level : RiskLevel := .low
  story_points : Option Int := none
deriving DecidableEq, Repr

/-- Metrics dict built by get_timeline_status (report_service.py 163-170). -/
structure TimelineMetrics where
  total_tasks : Nat
  completed : Nat
  blocked : Nat
  overdue : Nat
  high_risk : Nat
  completion_rate : ℚ
deriving DecidableEq, Repr

/-- Result dict of get_timeline_status; the `metrics` key is absent in the
empty-task-set answer. -/
structure TimelineResult where
  status : String
  reason : String
  metrics : Option TimelineMetrics
deriving DecidableEq, Repr

/-- Round-half-to-even of a nonnegative rational to an integer, realising
Python's `round` (the sub-ulp double-representation error of the argument is
below every tie that occurs here and is ignored by the model). -/
def rhe (q : ℚ) : Int :=
  if q - ⌊q⌋ > 1 / 2 then ⌊q⌋ + 1
  else if q - ⌊q⌋ < 1 / 2 then ⌊q⌋
  else if ⌊q⌋ % 2 = 0 then ⌊q⌋ else ⌊q⌋ + 1

/-- The overdue test of get_timeline_status:
`t.deadline and t.deadline < datetime.now() and t.status.value != 'done'`. -/
def is_overdue_row (now : Int) (t : Task) : Bool :=
  (match t.deadline with
   | some dl => decide (dl < now)
   | none => false) && (t.status.value != "done")

/-- ReportService.get_timeline_status (report_service.py lines 127-171).
The db query is abstracted to the fetched task list, `datetime.now()` to the
parameter `now`, and the float literals to exact rationals (header note). -/
def get_timeline_status (tasks : List Task) (now : Int) : TimelineResult :=
  if tasks = [] then
    { status := "Needs More Info", reason := "No tasks found in project", metrics := none }
  else
    let total_tasks := tasks.length
    let completed_tasks := (tasks.filter (fun t => t.status.value == "done")).length
    let blocked_tasks := (tasks.filter (fun t => t.status.value == "blocked")).length
    let overdue_tasks := (tasks.filter (is_overdue_row now)).length
    let high_risk_tasks := (tasks.filter (fun t => t.ai_risk_level.value == "high")).length
    let completion_rate : ℚ :=
      if total_tasks > 0 then (completed_tasks : ℚ) / (total_tasks : ℚ) else 0
    let metrics : TimelineMetrics :=
      { total_tasks := total_tasks
        completed := completed_tasks
        blocked := blocked_tasks
        overdue := overdue_tasks
        high_risk := high_risk_tasks
        completion_rate := (rhe (completion_rate * 100 * 10) : ℚ) / 10 }
    if (blocked_tasks : ℚ) > (total_tasks : ℚ) * 0.3 ∨
        (overdue_tasks : ℚ) > (total_tasks : ℚ) * 0.2 then
      { status := "Off Track"
        reason := toString blocked_tasks ++ " blocked tasks, " ++
          toString overdue_tasks ++ " overdue tasks"
        metrics := some metrics }
    else if (high_risk_tasks : ℚ) > (total_tasks : ℚ) * 0.3 ∨ overdue_tasks > 0 then
      { status := "At Risk"
        reason := toString high_risk_tasks ++ " high-risk tasks, " ++
          toString overdue_tasks ++ " overdue tasks"
        metrics := some metrics }
    else if completion_rate > 0.7 then
      { status := "On Track"
        reason := toString ⌊completion_rate * 100⌋ ++ "% tasks completed"
        metrics := some metrics }
    else
      { status := "On Track"
        reason := "Project progressing normally"
        metrics := some metrics }

/-- Project row (models/project.py), restricted to the fields the report
service uses. -/
structure Project where
  id : Nat := 0
  name : String := ""
deriving DecidableEq, Repr

/-- One {task, reason} pair, as produced for risks and blocked items. -/
structure RiskItem where
  task : String
  reason : String
deriving DecidableEq, Repr

/-- Structured response of the narrative provider, i.e. the parsed JSON of
generate_daily_summary's prompt answer; a key missing from the parsed
object is `none`. -/
structure ProviderResult where
  key_progress : Option (List String) := none
  risks : Option (List RiskItem) := none
  urgent_tasks : Option (List String) := none
  blocked_items : Option (List RiskItem) := none
  summary_text : Option String := none
deriving DecidableEq, Repr

/-- Fallback value returned by generate_daily_summary when the provider
raises or its content is not parseable JSON (ai_service.py lines 190-198). -/
def summary_fallback : ProviderResult :=
  { key_progress := some []
    risks := some []
    urgent_tasks := some []
    blocked_items := some []
    summary_text := some "Unable to generate summary at this time." }

/-- AIService.generate_daily_summary (ai_service.py lines 132-198).  The
Anthropic call plus JSON extraction is the external narrative provider,
modelled by the `response` argument: `.ok` is a successfully parsed
structure, `.error` any raised provider error or unparseable content.
Every failure is caught and degrades to the fixed fallback. -/
def generate_daily_summary (response : Except Unit ProviderResult) : ProviderResult :=
  match response with
  | .ok r => r
  | .error _ => summary_fallback

/-- DailyReport row (models/daily_report.py); the three JSON text columns
are modelled by their parsed content, which `json.dumps` encodes
injectively whenever it succeeds. -/
structure DailyReport where
  id : Nat
  project_id : Nat
  date : Int
  summary_text : String
  priority_list_json : List TaskDict
  risks_json : List RiskItem
  blocked_tasks_json : List RiskItem
deriving DecidableEq, Repr

/-- Persistent state read and written by the report service; ids of new
reports are drawn from `next_report_id` (autoincrement primary key). -/
structure DB where
  projects : List Project := []
  tasks : List Task := []
  reports : List DailyReport := []
  next_report_id : Nat := 1
deriving DecidableEq, Repr

/-- Dict built for each task by generate_daily_report (report_service.py
lines 29-42); it always carries a datetime under 'current_date'. -/
def task_to_report_dict (now : Int) (t : Task) : TaskDict :=
  { id := some t.id
    title := t.title
    description := t.description
    status := t.status.value
    deadline := t.deadline
    assignee := t.assignee
    priority_score := some t.priority_score
    ai_risk_level := some t.ai_risk_level.value
    task_type := some t.task_type.value
    current_date := some now }

/-- Model of `json.dumps` on a list of task dicts: it raises TypeError
whenever a dict holds a datetime value (under 'deadline' or
'current_date'), since datetime is not JSON serializable; a successful
encoding is modelled by the list itself. -/
def json_dumps_task_dicts (l : List TaskDict) : Except PyErr (List TaskDict) :=
  if l.any (fun t => t.deadline.isSome || t.current_date.isSome) then
    Except.error PyErr.typeError
  else
    Except.ok l

/-- ReportService.generate_daily_report (report_service.py lines 18-86).
Inputs besides the db: the narrative-provider response, `date.today()` as
`today` and `datetime.now()` as `now`.  Returns the report the method
returns together with the committed db, or the raised exception.  Note the
order of effects in the source: the DailyReport constructor call — and with
it `json.dumps(ranked_tasks[:10])` — is evaluated before the
existing-report query. -/
def generate_daily_report (db : DB) (project_id : Nat)
    (response : Except Unit ProviderResult) (today : Int) (now : Int) :
    Except PyErr (DailyReport × DB) :=
  match db.projects.find? (fun p => p.id == project_id) with
  | none => Except.error PyErr.valueError
  | some _project =>
    let tasks := db.tasks.filter (fun t => t.project_id == project_id)
    let task_dicts := tasks.map (task_to_report_dict now)
    -- rank_tasks_by_priority writes each score into the dicts in place and
    -- returns the sorted copy of the list, so after the call `task_dicts`
    -- holds the scored dicts in original order:
    let scored := task_dicts.map set_priority
    let ranked_tasks := scored.insertionSort rank_le
    let ai_summary := generate_daily_summary response
    let blocked_tasks := (scored.filter (fun t => t.status == "blocked")).map
      (fun t => ({ task := t.title, reason := "Marked as blocked" } : RiskItem))
    match json_dumps_task_dicts (ranked_tasks.take 10) with
    | .error e => Except.error e
    | .ok priority_list =>
      let summary_text := ai_summary.summary_text.getD ""
      let risks := ai_summary.risks.getD []
      match db.reports.find? (fun r => r.project_id == project_id && r.date == today) with
      | some existing =>
        let updated : DailyReport :=
          { existing with
            summary_text := summary_text
            priority_list_json := priority_list
            risks_json := risks
            blocked_tasks_json := blocked_tasks }
        Except.ok (updated,
          { db with
            reports := db.reports.map (fun r => if r.id = existing.id then updated else r) })
      | none =>
        let report : DailyReport :=
          { id := db.next_report_id
            project_id := project_id
            date := today
            summary_text := summary_text
            priority_list_json := priority_list
            risks_json := risks
            blocked_tasks_json := blocked_tasks }
        Except.ok (report,
          { db with
            reports := db.reports ++ [report]
            next_report_id := db.next_report_id + 1 })

/-- Calendar date produced by datetime.strptime in the import paths. -/
structure PDate where
  year : Nat
  month : Nat
  day : Nat
deriving DecidableEq, Repr

/-- Split a character list at every occurrence of `sep` (the list analogue
of Python's `str.split(sep)` with all fields kept). -/
def splitOnChar (sep : Char) : List Char → List (List Char)
  | [] => [[]]
  | c :: rest =>
    if c = sep then [] :: splitOnChar sep rest
    else
      match splitOnChar sep rest with
      | [] => [[c]]
      | h :: t => (c :: h) :: t

/-- Non-empty list of decimal digits. -/
def allDigits (cs : List Char) : Bool :=
  !cs.isEmpty && cs.all Char.isDigit

/-- Numeric value of a digit list. -/
def digitsToNat (cs : List Char) : Nat :=
  cs.foldl (fun n c => 10 * n + (c.toNat - 48)) 0

/-- A date field group: digits of bounded width in a bounded range. -/
def dateField (cs : List Char) (width lo hi : Nat) : Bool :=
  allDigits cs && cs.length ≤ width && lo ≤ digitsToNat cs && digitsToNat cs ≤ hi

/-- Model of `datetime.strptime(s, '%Y-%m-%d')` on the character list of
`s`: three dash-separated digit fields of width at most 4/2/2, month 1-12,
day 1-31 (strptime's further calendar-validity check is elided; no claim
depends on it).  `none` models the ValueError strptime raises on a
non-matching string. -/
def strptimeListYmd (cs : List Char) : Option PDate :=
  match splitOnChar '-' cs with
  | [y, m, d] =>
    if dateField y 4 1 9999 && dateField m 2 1 12 && dateField d 2 1 31 then
      some ⟨digitsToNat y, digitsToNat m, digitsToNat d⟩
    else none
  | _ => none

/-- Model of `datetime.strptime(s, '%m/%d/%Y')`, analogous to
`strptimeListYmd`. -/
def strptimeListMdy (cs : List Char) : Option PDate :=
  match splitOnChar '/' cs with
  | [m, d, y] =>
    if dateField y 4 1 9999 && dateField m 2 1 12 && dateField d 2 1 31 then
      some ⟨digitsToNat y, digitsToNat m, digitsToNat d⟩
    else none
  | _ => none

/-- `datetime.strptime(s, '%Y-%m-%d')` on a string. -/
def strptime_Ymd (s : String) : Option PDate :=
  strptimeListYmd s.toList

/-- `datetime.strptime(s, '%m/%d/%Y')` on a string. -/
def strptime_mdY (s : String) : Option PDate :=
  strptimeListMdy s.toList

/-- Deadline parsing in import_from_csv (task_service.py lines 36-44): an
empty (falsy) cell is skipped, otherwise ISO is tried first, then the US
format, with each failure caught.  This path is total — it cannot raise. -/
def parse_deadline_csv (deadline_str : String) : Option PDate :=
  if deadline_str = "" then none
  else
    match strptime_Ymd deadline_str with
    | some d => some d
    | none =>
      match strptime_mdY deadline_str with
      | some d => some d
      | none => none

/-- Deadline parsing in import_from_trello (task_service.py lines 88-91):
only `strptime(card.due_date[:10], '%Y-%m-%d')` is attempted, with no
dedicated try/except and no US-format fallback, so an unparseable due date
raises ValueError (logged and re-raised by the method's outer handler). -/
def parse_deadline_trello (due_date : Option String) : Except PyErr (Option PDate) :=
  match due_date with
  | none => Except.ok none
  | some s =>
    if s = "" then Except.ok none
    else
      match strptimeListYmd (s.toList.take 10) with
      | some d => Except.ok (some d)
      | none => Except.error PyErr.valueError

/-- Deadline normalization in the words of the spec (§4.6): "try ISO
`YYYY-MM-DD` first, then `MM/DD/YYYY`; if both fail, leave deadline
unset". -/
def spec_deadline_norm (s : String) : Option PDate :=
  (strptime_Ymd s).orElse (fun _ => strptime_mdY s)

/-- First-match-wins evaluation of an ordered guarded-rule list: the value
attached to the first rule whose guard holds, else the default. -/
def firstMatch {α : Type} : List (Bool × α) → α → α
  | [], dflt => dflt
  | (c, v) :: rest, dflt => if c then v else firstMatch rest dflt

/-- Number of tasks with the given status (spec §4.4 metrics). -/
def countStatus (tasks : List Task) (s : TaskStatus) : Nat :=
  (tasks.filter (fun t => decide (t.status = s))).length

/-- Number of overdue tasks: deadline present, before `now`, status not
done (spec §4.4 metrics). -/
def countOverdue (tasks : List Task) (now : Int) : Nat :=
  (tasks.filter (fun t =>
    (match t.deadline with
     | some dl => decide (dl < now)
     | none => false) && decide (t.status ≠ .done))).length

/-- Number of high-risk tasks (spec §4.4 metrics). -/
def countHighRisk (tasks : List Task) : Nat :=
  (tasks.filter (fun t => decide (t.ai_risk_level = .high))).length

/-- The ordered classification rules of spec §4.4 over the metric counts,
as (guard, (status, reason)) pairs; fraction comparisons are strict. -/
def timeline_rules (total blocked overdue high_risk : Nat) (completion_rate : ℚ) :
    List (Bool × (String × String)) :=
  [ (decide ((blocked : ℚ) > (total : ℚ) * 0.3) || decide ((overdue : ℚ) > (total : ℚ) * 0.2),
      ("Off Track",
        toString blocked ++ " blocked tasks, " ++ toString overdue ++ " overdue tasks")),
    (decide ((high_risk : ℚ) > (total : ℚ) * 0.3) || decide (overdue > 0),
      ("At Risk",
        toString high_risk ++ " high-risk tasks, " ++ toString overdue ++ " overdue tasks")),
    (decide (completion_rate > 0.7),
      ("On Track", toString ⌊completion_rate * 100⌋ ++ "% tasks completed")) ]

/-! ## Concrete inputs used by witnesses and counterexamples -/

/-- Task dict with a deadline (day 3, in minutes) but no reference date. -/
def exNoCur : TaskDict :=
  { title := "Prepare release notes", status := "in_progress", deadline := some 4320,
    current_date := none, ai_risk_level := some "medium", task_type := some "feature" }

/-- Base task dict for the deadline-monotonicity witness: reference date 0,
blocked, medium risk, bug type. -/
def exMono : TaskDict :=
  { title := "Fix flaky test", status := "blocked", current_date := some 0,
    ai_risk_level := some "medium", task_type := some "bug" }

/-- Blocked task with every other risk term neutral: assigned, described,
no deadline, small story-point estimate. -/
def exBlockedNeutral : TaskDict :=
  { title := "Integrate payment API", status := "blocked", assignee := some "alice",
    description := some "Waiting on vendor sandbox access", deadline := none,
    current_date := some 0, story_points := some 3, ai_risk_level := some "low",
    task_type := some "feature" }

/-- Variant of the blocked-neutral task whose deadline is present but not
before the reference date. -/
def exBlockedFuture : TaskDict :=
  { exBlockedNeutral with
    title := "Ship onboarding flow"
    deadline := some 5000
    current_date := some 0 }

/-- Ten tasks, of which exactly three are blocked: the blocked fraction is
exactly 30%. -/
def exC3tasks : List Task :=
  [ { id := 1, project_id := 1, title := "a", status := .blocked },
    { id := 2, project_id := 1, title := "b", status := .blocked },
    { id := 3, project_id := 1, title := "c", status := .blocked },
    { id := 4, project_id := 1, title := "d" },
    { id := 5, project_id := 1, title := "e" },
    { id := 6, project_id := 1, title := "f" },
    { id := 7, project_id := 1, title := "g" },
    { id := 8, project_id := 1, title := "h" },
    { id := 9, project_id := 1, title := "i" },
    { id := 10, project_id := 1, title := "j" } ]

/-- Demo project used by the report-generation evaluations. -/
def exProject : Project := { id := 1, name := "Demo" }

/-- One plain task in the demo project; its report dict necessarily holds
a datetime under 'current_date'. -/
def exTask : Task :=
  { id := 7, project_id := 1, title := "Fix login bug", status := .todo }

/-- Existing report for (project 1, day 100) with stale content. -/
def exOldReport : DailyReport :=
  { id := 3, project_id := 1, date := 100, summary_text := "old",
    priority_list_json := [], risks_json := [], blocked_tasks_json := [] }

/-- A successfully parsed provider response. -/
def exProvider : ProviderResult :=
  { key_progress := some ["Login flow reviewed"]
    risks := some [{ task := "Fix login bug", reason := "deadline approaching" }]
    urgent_tasks := some ["Fix login bug"]
    blocked_items := some []
    summary_text := some "Steady progress." }

/-- Task-free project db holding an existing report for day 100. -/
def exDbNoTasks : DB :=
  { projects := [exProject], tasks := [], reports := [exOldReport], next_report_id := 4 }

/-- The same db with one task, so the report dicts hold datetime values. -/
def exDbOneTask : DB :=
  { projects := [exProject], tasks := [exTask], reports := [exOldReport], next_report_id := 4 }

/-- The overwritten report produced from `exDbNoTasks` and `exProvider`:
same identity (id 3) as `exOldReport`, refreshed content. -/
def exUpdatedReport : DailyReport :=
  { id := 3, project_id := 1, date := 100, summary_text := "Steady progress.",
    priority_list_json := [],
    risks_json := [{ task := "Fix login bug", reason := "deadline approaching" }],
    blocked_tasks_json := [] }

/-- The db state after the overwrite: still exactly one report. -/
def exDbNoTasksAfter : DB :=
  { projects := [exProject], tasks := [], reports := [exUpdatedReport], next_report_id := 4 }

/-- The report produced from `exDbNoTasks` when the provider fails:
placeholder summary, empty risks. -/
def exFallbackReport : DailyReport :=
  { id := 3, project_id := 1, date := 100,
    summary_text := "Unable to generate summary at this time.",
    priority_list_json := [], risks_json := [], blocked_tasks_json := [] }

/-- The db state after the fallback overwrite. -/
def exDbFallbackAfter : DB :=
  { projects := [exProject], tasks := [], reports := [exFallbackReport], next_report_id := 4 }

/-! ## Theorems -/

/-- C9: for the empty task set, get_timeline_status returns exactly the
status "Needs More Info" with the fixed reason literal and no metrics
object in the result. -/
theorem timeline_empty_needs_more_info (now : Int) :
    get_timeline_status [] now =
      { status := "Needs More Info", reason := "No tasks found in project", metrics := none } :=
  rfl

/-- Each branch of `risk_weights_get` yields at least 5. -/
theorem risk_weights_get_ge_five (r : Option String) : 5 ≤ risk_weights_get r := by
  unfold risk_weights_get
  split <;> omega

/-- The status contribution is nonnegative. -/
theorem status_points_nonneg (s : String) : 0 ≤ status_points s := by
  unfold status_points
  split_ifs <;> omega

/-- The task-type contribution is nonnegative. -/
theorem type_points_nonneg (tt : Option String) : 0 ≤ type_points tt := by
  unfold type_points
  split_ifs <;> omega

/-- Every urgency tier is nonnegative. -/
theorem urgency_points_nonneg (d : Int) : 0 ≤ urgency_points d := by
  unfold urgency_points
  split_ifs <;> omega

/-- The urgency term is nonnegative. -/
theorem urgency_term_nonneg (t : TaskDict) : 0 ≤ urgency_term t := by
  unfold urgency_term
  rcases days_until_deadline t with _ | d
  · exact le_refl 0
  · exact urgency_points_nonneg d

/-- C8: for every task view, calculate_priority_score returns at least 5:
the risk-level contribution (high 30, medium 15, low 5) is always applied
and is at least 5 even for an absent or unrecognized risk label, and every
other contribution is nonnegative. -/
theorem priority_score_ge_five (t : TaskDict) : 5 ≤ calculate_priority_score t := by
  unfold calculate_priority_score
  have h1 := urgency_term_nonneg t
  have h2 := status_points_nonneg t.status
  have h3 := risk_weights_get_ge_five t.ai_risk_level
  have h4 := type_points_nonneg t.task_type
  omega

/-- C10: for every task view with a deadline but no reference-date entry,
calculate_priority_score substitutes the deadline itself as the reference
date, so the days-until value is 0, the +50 urgency tier applies, and the
score is 50 plus the status, risk and type contributions. -/
theorem priority_score_no_current_date (t : TaskDict) (dl : Int)
    (hdl : t.deadline = some dl) (hcur : t.current_date = none) :
    days_until_deadline t = some 0 ∧ urgency_term t = 50 ∧
      calculate_priority_score t =
        50 + status_points t.status + risk_weights_get t.ai_risk_level +
          type_points t.task_type := by
  have hd : days_until_deadline t = some 0 := by
    simp [days_until_deadline, hdl, hcur, Int.zero_fdiv]
  have hu : urgency_term t = 50 := by
    rw [urgency_term, hd]
    decide
  refine ⟨hd, hu, ?_⟩
  rw [calculate_priority_score, hu]

/-- Witness for C10 at a concrete task: a deadline of day 3 with no
reference date gives days-until 0 and total score 50 + 25 + 15 + 0 = 90. -/
theorem priority_score_no_current_date_witness :
    days_until_deadline exNoCur = some 0 ∧ urgency_term exNoCur = 50 ∧
      calculate_priority_score exNoCur =
        50 + status_points exNoCur.status + risk_weights_get exNoCur.ai_risk_level +
          type_points exNoCur.task_type :=
  priority_score_no_current_date exNoCur 4320 rfl rfl

/-- The urgency tiers are non-increasing in the days-until value. -/
theorem urgency_points_antitone {a b : Int} (h : a ≤ b) :
    urgency_points b ≤ urgency_points a := by
  unfold urgency_points
  split_ifs <;> omega

/-- C7: the priority score is monotonically non-increasing in
days-until-deadline: for two task views identical except for the deadline,
with days-until values d1 ≤ d2, the first scores at least the second. -/
theorem priority_score_monotone_in_deadline (t : TaskDict) (dl₁ dl₂ d₁ d₂ : Int)
    (h₁ : days_until_deadline { t with deadline := some dl₁ } = some d₁)
    (h₂ : days_until_deadline { t with deadline := some dl₂ } = some d₂)
    (h : d₁ ≤ d₂) :
    calculate_priority_score { t with deadline := some dl₂ } ≤
      calculate_priority_score { t with deadline := some dl₁ } := by
  have hu₁ : urgency_term { t with deadline := some dl₁ } = urgency_points d₁ := by
    rw [urgency_term, h₁]
  have hu₂ : urgency_term { t with deadline := some dl₂ } = urgency_points d₂ := by
    rw [urgency_term, h₂]
  have := urgency_points_antitone h
  unfold calculate_priority_score
  rw [hu₁, hu₂]
  dsimp only
  omega

/-- C2 counterexample: for a concrete blocked task with every other risk
term neutral, detect_risk_level returns "medium", not "high" — the blocked
term alone scores 3, which meets the medium threshold (≥2) but not the
high threshold (≥4), so the claim that classify returns HIGH fails. -/
theorem detect_risk_blocked_counterexample :
    detect_risk_level exBlockedNeutral = Except.ok "medium" ∧
      ("medium" : String) ≠ "high" :=
  ⟨rfl, by decide⟩

/-- C2 (amended): for every task whose status is blocked and whose other
risk terms contribute nothing (assignee present and non-empty, non-empty
description, deadline absent or not before the reference date, story
points below 8), detect_risk_level returns MEDIUM: the blocked term alone
contributes exactly 3, which meets the score-≥-2 medium threshold but not
the ≥4 high threshold. -/
theorem detect_risk_blocked_neutral_medium (t : TaskDict)
    (hstat : t.status = "blocked")
    (hassign : ∃ a, t.assignee = some a ∧ a ≠ "")
    (hdesc : ∃ d, t.description = some d ∧ d ≠ "")
    (hdl : t.deadline = none ∨
      ∃ dl c, t.deadline = some dl ∧ t.current_date = some c ∧ ¬ dl < c)
    (hsp : t.story_points.getD 0 < 8) :
    detect_risk_level t = Except.ok "medium" := by
  obtain ⟨a, ha, hane⟩ := hassign
  obtain ⟨d, hde, hdne⟩ := hdesc
  have hov : overdue_check t.deadline t.current_date = Except.ok false := by
    rcases hdl with h | ⟨dl, c, h1, h2, h3⟩
    · rw [h]
      cases t.current_date <;> rfl
    · rw [h1, h2]
      simp [overdue_check, h3]
  have hscore : risk_score_of t false = 3 := by
    rw [risk_score_of]
    rw [if_neg (by simp)]
    rw [if_neg (by simp [ha, hane])]
    rw [if_pos hstat]
    rw [if_neg ?hunclear]
    rw [if_neg (by omega)]
    case hunclear =>
      rintro (h | h | h)
      · rw [hstat] at h
        exact absurd h (by decide)
      · rw [hde] at h
        exact Option.noConfusion h
      · rw [hde] at h
        exact hdne (Option.some.injEq _ _ ▸ h)
    norm_num
  rw [detect_risk_level, hov]
  dsimp only
  rw [hscore]
  rw [if_neg (by norm_num), if_pos (by norm_num)]
  rfl

/-- Witness for the amended C2 at a concrete blocked task whose deadline
lies in the future of the reference date. -/
theorem detect_risk_blocked_neutral_medium_witness :
    detect_risk_level exBlockedFuture = Except.ok "medium" :=
  detect_risk_blocked_neutral_medium exBlockedFuture rfl
    ⟨"alice", rfl, by decide⟩
    ⟨"Waiting on vendor sandbox access", rfl, by decide⟩
    (Or.inr ⟨5000, 0, rfl, rfl, by decide⟩)
    (by decide)

/-- C1 (code evaluated at the failing input): with a task-free project the
upsert semantics of generate_daily_report hold — the existing report for
(project 1, day 100) is overwritten in place keeping id 3, no second
report is created, and a repeated call with unchanged data returns the
identical report and leaves the db unchanged — but for a project with a
single task the very same call raises TypeError (json.dumps cannot
serialize the datetime values in the ranked task dicts) instead of
upserting, so the claimed behaviour fails for every project that has at
least one task. -/
theorem generate_daily_report_upsert_evaluation :
    generate_daily_report exDbNoTasks 1 (Except.ok exProvider) 100 5000 =
      Except.ok (exUpdatedReport, exDbNoTasksAfter) ∧
    generate_daily_report exDbNoTasksAfter 1 (Except.ok exProvider) 100 5000 =
      Except.ok (exUpdatedReport, exDbNoTasksAfter) ∧
    generate_daily_report exDbOneTask 1 (Except.ok exProvider) 100 5000 =
      Except.error PyErr.typeError :=
  ⟨rfl, rfl, rfl⟩

/-- C5 (code evaluated at the failing input): a provider failure degrades
generate_daily_summary to the fixed fallback — placeholder summary text
and empty progress/risk lists — and a task-free report generation then
still succeeds with that placeholder content; but for a project with one
task generate_daily_report raises TypeError during priority-list
serialization even though the provider fallback worked, so "still
succeeds" fails for every project that has at least one task. -/
theorem provider_failure_fallback_evaluation :
    generate_daily_summary (Except.error ()) = summary_fallback ∧
    summary_fallback.summary_text = some "Unable to generate summary at this time." ∧
    summary_fallback.risks = some [] ∧
    summary_fallback.key_progress = some [] ∧
    generate_daily_report exDbNoTasks 1 (Except.error ()) 100 5000 =
      Except.ok (exFallbackReport, exDbFallbackAfter) ∧
    generate_daily_report exDbOneTask 1 (Except.error ()) 100 5000 =
      Except.error PyErr.typeError :=
  ⟨rfl, rfl, rfl, rfl, rfl, rfl⟩

/-- The code's string test for done tasks agrees with the enum count. -/
theorem filter_done_eq (tasks : List Task) :
    (tasks.filter (fun t => t.status.value == "done")).length = countStatus tasks .done := by
  unfold countStatus
  congr 1
  apply List.filter_congr
  intro t _
  cases t.status <;> rfl

/-- The code's string test for blocked tasks agrees with the enum count. -/
theorem filter_blocked_eq (tasks : List Task) :
    (tasks.filter (fun t => t.status.value == "blocked")).length =
      countStatus tasks .blocked := by
  unfold countStatus
  congr 1
  apply List.filter_congr
  intro t _
  cases t.status <;> rfl

/-- The code's overdue test agrees with the spec's overdue count. -/
theorem filter_overdue_eq (tasks : List Task) (now : Int) :
    (tasks.filter (is_overdue_row now)).length = countOverdue tasks now := by
  unfold countOverdue
  congr 1
  apply List.filter_congr
  intro t _
  unfold is_overdue_row
  cases t.deadline <;> cases t.status <;> rfl

/-- The code's string test for high risk agrees with the enum count. -/
theorem filter_high_eq (tasks : List Task) :
    (tasks.filter (fun t => t.ai_risk_level.value == "high")).length =
      countHighRisk tasks := by
  unfold countHighRisk
  congr 1
  apply List.filter_congr
  intro t _
  cases t.ai_risk_level <;> rfl

/-- C3: for every non-empty task set the timeline status and reason are
decided by the first matching rule of the ordered list Off Track / At Risk
/ completion On Track, with the fixed progressing-normally default, and
the fraction comparisons are strict, so a project whose blocked count
equals exactly 30% of the total does not by that rule alone become Off
Track. -/
theorem timeline_first_match (tasks : List Task) (now : Int) (h : tasks ≠ []) :
    ((get_timeline_status tasks now).status, (get_timeline_status tasks now).reason) =
      firstMatch
        (timeline_rules tasks.length (countStatus tasks .blocked) (countOverdue tasks now)
          (countHighRisk tasks)
          ((countStatus tasks .done : ℚ) / (tasks.length : ℚ)))
        ("On Track", "Project progressing normally") ∧
    (10 * countStatus tasks .blocked = 3 * tasks.length →
      ¬ ((countOverdue tasks now : ℚ) > (tasks.length : ℚ) * 0.2) →
      (get_timeline_status tasks now).status ≠ "Off Track") := by
  have htot : 0 < tasks.length := List.length_pos.mpr h
  have hb := filter_blocked_eq tasks
  have hd := filter_done_eq tasks
  have ho := filter_overdue_eq tasks now
  have hh := filter_high_eq tasks
  constructor
  · unfold get_timeline_status
    rw [if_neg h]
    simp only [hb, hd, ho, hh, if_pos htot, timeline_rules, firstMatch,
      Bool.or_eq_true, decide_eq_true_eq]
    split_ifs <;> rfl
  · intro h10 hov2
    have hfrac : (countStatus tasks .blocked : ℚ) = (tasks.length : ℚ) * 0.3 := by
      have hq := congrArg (fun n : ℕ => (n : ℚ)) h10
      push_cast at hq
      norm_num
      linarith
    have hrule1 : ¬ ((countStatus tasks .blocked : ℚ) > (tasks.length : ℚ) * 0.3) := by
      rw [hfrac]
      exact lt_irrefl _
    unfold get_timeline_status
    rw [if_neg h]
    simp only [hb, hd, ho, hh]
    rw [if_neg (not_or.mpr ⟨hrule1, hov2⟩)]
    split_ifs <;> (dsimp only; decide)

/-- Witness for C3 at ten concrete tasks with exactly three blocked and
nothing overdue: both conjuncts applied at `exC3tasks` and reference
instant 0. -/
theorem timeline_first_match_witness :
    ((get_timeline_status exC3tasks 0).status, (get_timeline_status exC3tasks 0).reason) =
      firstMatch
        (timeline_rules exC3tasks.length (countStatus exC3tasks .blocked)
          (countOverdue exC3tasks 0) (countHighRisk exC3tasks)
          ((countStatus exC3tasks .done : ℚ) / (exC3tasks.length : ℚ)))
        ("On Track", "Project progressing normally") ∧
    (10 * countStatus exC3tasks .blocked = 3 * exC3tasks.length →
      ¬ ((countOverdue exC3tasks 0 : ℚ) > (exC3tasks.length : ℚ) * 0.2) →
      (get_timeline_status exC3tasks 0).status ≠ "Off Track") :=
  timeline_first_match exC3tasks 0 (by unfold exC3tasks; exact List.cons_ne_nil _ _)

/-- C4 counterexample: a Trello card whose due date is in the US
MM/DD/YYYY format.  The Trello import path attempts only ISO on the first
ten characters and raises ValueError instead of trying MM/DD/YYYY or
leaving the deadline unset, refuting the claim that in every external
source format parsing tries both formats and never raises. -/
theorem trello_deadline_counterexample :
    parse_deadline_trello (some "01/15/2024") = Except.error PyErr.valueError ∧
      strptime_mdY "01/15/2024" = some ⟨2024, 1, 15⟩ := by
  constructor <;> rfl

/-- C4 (amended): deadline parsing in the CSV import path tries ISO
YYYY-MM-DD first, then MM/DD/YYYY, leaves the deadline unset when both
fail and never raises — it agrees pointwise with the spec's normalization
rule; the Trello import path instead parses only ISO on the first ten
characters of a present, non-empty due date, and raises ValueError when
that fails. -/
theorem deadline_parsing_amended :
    (∀ s : String, parse_deadline_csv s = spec_deadline_norm s) ∧
    parse_deadline_trello none = Except.ok none ∧
    (∀ s : String,
      (s = "" ∧ parse_deadline_trello (some s) = Except.ok none) ∨
      (∃ d, strptimeListYmd (s.toList.take 10) = some d ∧
        parse_deadline_trello (some s) = Except.ok (some d)) ∨
      (strptimeListYmd (s.toList.take 10) = none ∧
        parse_deadline_trello (some s) = Except.error PyErr.valueError)) := by
  refine ⟨fun s => ?_, rfl, fun s => ?_⟩
  · by_cases hs : s = ""
    · subst hs
      rfl
    · unfold parse_deadline_csv spec_deadline_norm
      rw [if_neg hs]
      cases h : strptime_Ymd s
      · cases strptime_mdY s <;> rfl
      · rfl
  · by_cases hs : s = ""
    · refine Or.inl ⟨hs, ?_⟩
      rw [hs]
      rfl
    · cases h : strptimeListYmd (s.toList.take 10) with
      | some d =>
        refine Or.inr (Or.inl ⟨d, rfl, ?_⟩)
        unfold parse_deadline_trello
        dsimp only
        rw [if_neg hs, h]
      | none =>
        refine Or.inr (Or.inr ⟨rfl, ?_⟩)
        unfold parse_deadline_trello
        dsimp only
        rw [if_neg hs, h]

/-- Any two members of an equal-score class are interchangeable for
rank_le. -/
theorem pairwise_rank_le_filter (s : Int) (l : List TaskDict) :
    (l.filter (fun t => sort_key t == s)).Pairwise rank_le := by
  apply List.pairwise_of_forall_mem_list
  intro a ha b hb
  have ha' : sort_key a = s := by simpa using (List.mem_filter.mp ha).2
  have hb' : sort_key b = s := by simpa using (List.mem_filter.mp hb).2
  unfold rank_le
  rw [ha', hb']

/-- Stability of the sort used by rank: filtering the output to any one
score class returns that class in input order. -/
theorem filter_insertionSort_rank (s : Int) (l : List TaskDict) :
    (l.insertionSort rank_le).filter (fun t => sort_key t == s) =
      l.filter (fun t => sort_key t == s) := by
  have hsub : List.Sublist (l.filter (fun t => sort_key t == s)) (l.insertionSort rank_le) :=
    List.sublist_insertionSort (pairwise_rank_le_filter s l) (List.filter_sublist l)
  have hidem : (l.filter (fun t => sort_key t == s)).filter (fun t => sort_key t == s) =
      l.filter (fun t => sort_key t == s) := by
    rw [List.filter_filter]
    exact List.filter_congr fun x _ => Bool.and_self _
  have hsub2 : List.Sublist (l.filter (fun t => sort_key t == s))
      ((l.insertionSort rank_le).filter (fun t => sort_key t == s)) := by
    have h2 := hsub.filter (fun t => sort_key t == s)
    rwa [hidem] at h2
  have hlen : ((l.insertionSort rank_le).filter (fun t => sort_key t == s)).length =
      (l.filter (fun t => sort_key t == s)).length :=
    ((List.perm_insertionSort rank_le l).filter _).length_eq
  exact (hsub2.eq_of_length hlen.symm).symm

/-- C6: rank_tasks_by_priority returns the scored tasks in descending
score order (every element's score is at least each later element's), the
output is a permutation of the scored input, and the sort is stable: each
equal-score class appears in the output exactly in its input order, so two
tasks with identical scores retain their relative input order. -/
theorem rank_tasks_desc_stable (tasks : List TaskDict) :
    (rank_tasks_by_priority tasks).Pairwise rank_le ∧
    List.Perm (rank_tasks_by_priority tasks) (tasks.map set_priority) ∧
    ∀ s : Int, (rank_tasks_by_priority tasks).filter (fun t => sort_key t == s) =
      (tasks.map set_priority).filter (fun t => sort_key t == s) := by
  refine ⟨?_, ?_, fun s => ?_⟩
  · exact List.sorted_insertionSort rank_le (tasks.map set_priority)
  · exact List.perm_insertionSort rank_le (tasks.map set_priority)
  · exact filter_insertionSort_rank s (tasks.map set_priority)

/-- Witness for C7: with reference date 0, a deadline one day past
(days-until −1) scores at least the same task due in ten days
(days-until 10); here 130 versus 30. -/
theorem priority_score_monotone_in_deadline_witness :
    days_until_deadline { exMono with deadline := some (-1440) } = some (-1) ∧
    days_until_deadline { exMono with deadline := some 14400 } = some 10 ∧
    calculate_priority_score { exMono with deadline := some 14400 } ≤
      calculate_priority_score { exMono with deadline := some (-1440) } :=
  ⟨by decide, by decide,
    priority_score_monotone_in_deadline exMono (-1440) 14400 (-1) 10
      (by decide) (by decide) (by decide)⟩

end PMA
